import Mathlib

/-!
Verification development for the PDF translation pipeline of the
openai-quickstart repository.

The embedding covers:
 - the model client with its rate-limit retry loop
   (ai_translator/model/openai_model.py, OpenAIModel.make_request);
 - the prompt builder
   (ai_translator/model/model.py, Model.make_text_prompt,
   Model.make_table_prompt, Model.translate_prompt);
 - the pipeline driver
   (ai_translator/translator/pdf_translator.py, PDFTranslator.translate_pdf).

The parser and the writer are external collaborators; they appear only as
the document value handed to the driver and as the record of what the
driver passes to the writer.
-/

/-! ### Model client (openai_model.py, OpenAIModel.make_request) -/

/-- One backend outcome of a single invocation inside the retry loop of
make_request: the try block either produces a translation, or raises one
of RateLimitError, APIConnectionError, APIError, or an unclassified
exception. -/
inductive Outcome where
  | success (translation : String)
  | rateLimit
  | apiConnectionError
  | apiError
  | otherError (msg : String)
  deriving DecidableEq, Repr

/-- How one call of make_request ends: a returned (translation, ok) pair,
a raised exception with its message, or the modelling artifact
outOfOutcomes, meaning the supplied finite oracle of backend outcomes was
exhausted while the loop was still running. -/
inductive ReqResult where
  | returned (translation : String) (ok : Bool)
  | raised (msg : String)
  | outOfOutcomes
  deriving DecidableEq, Repr

/-- Observable trace of one make_request call: its result, the list of
backoff sleep durations performed (time.sleep(60) contributes one entry
of 60), and how many times the backend was invoked. -/
structure ReqRun where
  result : ReqResult
  sleeps : List Nat
  calls : Nat
  deriving DecidableEq, Repr

/-- The while loop of OpenAIModel.make_request (openai_model.py lines
16-53), with the backend abstracted as a list of outcomes consumed one
per invocation. The loop head checks attempts < 3; a success returns
(translation, True); RateLimitError increments attempts, sleeps 60 and
retries while attempts < 3 and otherwise raises; APIConnectionError and
APIError only print and fall through to the next iteration without
touching attempts; any other exception is re-raised; leaving the loop
yields the final return ("", False). -/
def makeRequestLoop (attempts : Nat) : List Outcome → ReqRun
  | [] =>
    if attempts < 3 then ⟨.outOfOutcomes, [], 0⟩ else ⟨.returned "" false, [], 0⟩
  | o :: rest =>
    if attempts < 3 then
      match o with
      | .success t => ⟨.returned t true, [], 1⟩
      | .rateLimit =>
        if attempts + 1 < 3 then
          let r := makeRequestLoop (attempts + 1) rest
          ⟨r.result, 60 :: r.sleeps, r.calls + 1⟩
        else ⟨.raised "Rate limit reached. Maximum attempts exceeded.", [], 1⟩
      | .apiConnectionError =>
        let r := makeRequestLoop attempts rest
        ⟨r.result, r.sleeps, r.calls + 1⟩
      | .apiError =>
        let r := makeRequestLoop attempts rest
        ⟨r.result, r.sleeps, r.calls + 1⟩
      | .otherError m => ⟨.raised ("发生了未知错误：" ++ m), [], 1⟩
    else ⟨.returned "" false, [], 0⟩

/-- OpenAIModel.make_request: run the retry loop with attempts = 0. -/
def make_request (outcomes : List Outcome) : ReqRun :=
  makeRequestLoop 0 outcomes

/-- True exactly when a run ended because the finite outcome oracle was
exhausted, i.e. the loop was still running at that point. -/
def ranDry : ReqResult → Bool
  | .outOfOutcomes => true
  | _ => false

/-- True exactly when the result is a returned pair whose success flag is
False, i.e. the final return ("", False) of make_request (or any other
non-success return). -/
def returnedFailure : ReqResult → Bool
  | .returned _ ok => !ok
  | _ => false

/-- Outcomes that settle the current attempt: a success returns, an
unclassified exception raises, and a rate limit consumes one unit of the
attempt budget. Connectivity failures and generic API errors are the two
outcomes that merely fall through the loop. -/
def settling : Outcome → Bool
  | .apiConnectionError => false
  | .apiError => false
  | _ => true

/-! ### Document model

Modelled from the spec: the book module (ContentType, Content, Page,
Book and Content.set_translation) is not under src; only its users are.
The spec describes a document as an ordered sequence of pages, each an
ordered sequence of content units tagged TEXT or TABLE, each holding an
original string (for tables, a flattened string representation) and
mutated once with a (translated string, success flag) result. -/

/-- Modelled from the spec: the tag of a content unit. The spec lists
TEXT and TABLE; the IMAGE tag stands for any further tag a parsed unit
may carry, for which the dispatch in Model.translate_prompt falls
through. -/
inductive ContentType where
  | TEXT
  | TABLE
  | IMAGE
  deriving DecidableEq, Repr

/-- Modelled from the spec: a content unit holds its tag and its original
string (the flattened string representation in the TABLE case); its
translation field is unset until the pipeline processes it. -/
structure Content where
  content_type : ContentType
  original : String
  translation : Option String := none
  status : Bool := false
  deriving DecidableEq, Repr

/-- Modelled from the spec: the flattened string representation of a
unit's original data, as consumed by the table prompt. -/
def get_original_as_str (c : Content) : String :=
  c.original

/-- Modelled from the spec: Content.set_translation stores the
(translation, status) result on the unit. -/
def set_translation (c : Content) (translation : String) (status : Bool) : Content :=
  { c with translation := some translation, status := status }

/-- Modelled from the spec: a page is an ordered list of content units. -/
structure Page where
  contents : List Content
  deriving DecidableEq, Repr

/-- Modelled from the spec: a book is an ordered list of pages. -/
structure Book where
  pages : List Page
  deriving DecidableEq, Repr

/-! ### Prompt builder (model.py, class Model) -/

/-- Model.make_text_prompt (model.py lines 4-11): exact-match lookup of
the target language in the dict literal, with dict.get falling back to
the generic template, then prefixed to the text. -/
def make_text_prompt (text : String) (target_language : String) : String :=
  let prompt :=
    if target_language = "中文" then "翻译为中文："
    else if target_language = "法语" then "Translate to French:"
    else if target_language = "日语" then "翻訳を日本語に："
    else "翻译为" ++ target_language ++ "："
  prompt ++ text

/-- Model.make_table_prompt (model.py lines 13-20): like
make_text_prompt but with table-preserving templates and a newline
between template and table. -/
def make_table_prompt (table : String) (target_language : String) : String :=
  let prompt :=
    if target_language = "中文" then "翻译为中文，保持表格格式："
    else if target_language = "法语" then "Translate to French, maintain table format:"
    else if target_language = "日语" then "翻訳を日本語に、表の形式を維持："
    else "翻译为" ++ target_language ++ "，保持表格格式："
  prompt ++ "\n" ++ table

/-- Model.translate_prompt (model.py lines 22-26): if/elif dispatch on
the unit's content type; a unit that is neither TEXT nor TABLE falls off
the end of the function, which in Python returns None. -/
def translate_prompt (content : Content) (target_language : String) : Option String :=
  match content.content_type with
  | .TEXT => some (make_text_prompt content.original target_language)
  | .TABLE => some (make_table_prompt (get_original_as_str content) target_language)
  | .IMAGE => none

/-! ### Pipeline driver (pdf_translator.py, PDFTranslator.translate_pdf) -/

/-- The total content-unit count of the book: sum(len(page.contents) for
page in self.book.pages) at pdf_translator.py line 24. -/
def totalContents (book : Book) : Nat :=
  (book.pages.map fun p => p.contents.length).sum

/-- All content units of a book in document traversal order (pages in
order, units in order within each page). -/
def doc_units (book : Book) : List Content :=
  (book.pages.map Page.contents).flatten

/-- Python str.lower as used on the file format (pdf_translator.py line
32); faithful on the ASCII format identifiers the program uses. -/
def py_lower (s : String) : String :=
  String.mk (s.data.map Char.toLower)

/-- Python str.rfind on a list of characters: the index of the last
occurrence of the character, or -1 when absent. -/
def str_rfind (s : List Char) (c : Char) : Int :=
  (List.range s.length).foldl (fun acc i => if s.get? i = some c then Int.ofNat i else acc) (-1)

/-- The root part of os.path.splitext (posixpath.splitext): split at the
last dot of the final path component, unless every character of that
component before the dot is itself a dot (leading dots do not start an
extension). -/
def splitext_root (path : String) : String :=
  let p := path.data
  let sepIdx := str_rfind p '/'
  let dotIdx := str_rfind p '.'
  if sepIdx < dotIdx then
    let start := (sepIdx + 1).toNat
    if (List.range' start (dotIdx.toNat - start)).any (fun i => p.get? i != some '.') then
      String.mk (p.take dotIdx.toNat)
    else path
  else path

/-- The inner loop body of translate_pdf over one page's contents
(pdf_translator.py lines 35-46), starting from a given processed count:
for each unit in order, build the prompt, invoke the model client req,
store the result on the unit, append the translation, and emit the
incremented processed count as the progress signal. Returns the mutated
units, the appended translations and the emitted signals. -/
def runContents (req : Option String → String × Bool) (target_language : String) :
    List Content → Nat → List Content × List String × List Nat
  | [], _ => ([], [], [])
  | c :: rest, processed =>
    let tr := req (translate_prompt c target_language)
    let r := runContents req target_language rest (processed + 1)
    (set_translation c tr.1 tr.2 :: r.1, tr.1 :: r.2.1, (processed + 1) :: r.2.2)

/-- The outer loop of translate_pdf over pages (pdf_translator.py lines
34-46), threading the processed count across pages. -/
def runPages (req : Option String → String × Bool) (target_language : String) :
    List Page → Nat → List Page × List String × List Nat
  | [], _ => ([], [], [])
  | p :: rest, processed =>
    let r1 := runContents req target_language p.contents processed
    let r2 := runPages req target_language rest (processed + p.contents.length)
    (Page.mk r1.1 :: r2.1, r1.2.1 ++ r2.2.1, r1.2.2 ++ r2.2.2)

/-- Observable effects of one translate_pdf call: the mutated book and
the output path and format as passed to writer.save_translated_book, the
accumulated translated_text list, the emitted progress signals, and the
joined string the call returns. -/
structure TranslateResult where
  book : Book
  output_file_path : String
  file_format : String
  translated_text : List String
  signals : List Nat
  joined : String
  deriving DecidableEq, Repr

/-- PDFTranslator.translate_pdf (pdf_translator.py lines 14-49) after the
external parse step: the already parsed book is an input, and the model
client is the function req from an optional prompt (translate_prompt may
yield None) to a (translation, status) pair. When output_file_path is
None the path is derived from the source path, the target language and
the lowercased format; the nested loops then process every unit in
order, the writer receives the mutated book, and the call returns the
translations joined by a double newline. -/
def translate_pdf (req : Option String → String × Bool) (book : Book)
    (pdf_file_path : String) (file_format : String) (target_language : String)
    (output_file_path : Option String) : TranslateResult :=
  let out :=
    match output_file_path with
    | some p => p
    | none => splitext_root pdf_file_path ++ "_translated_" ++ target_language ++ "." ++ py_lower file_format
  let r := runPages req target_language book.pages 0
  { book := Book.mk r.1
    output_file_path := out
    file_format := file_format
    translated_text := r.2.1
    signals := r.2.2
    joined := String.intercalate "\n\n" r.2.1 }

/-- The effect of processing one unit: its translation and status fields
are set from the model client's answer to its prompt. -/
def mutate_unit (req : Option String → String × Bool) (target_language : String)
    (c : Content) : Content :=
  set_translation c (req (translate_prompt c target_language)).1
    (req (translate_prompt c target_language)).2

/-- The translation string the model client produces for one unit. -/
def unit_translation (req : Option String → String × Bool) (target_language : String)
    (c : Content) : String :=
  (req (translate_prompt c target_language)).1

/-! ### Concrete instances used by individual claims -/

/-- A backend that fails with four connectivity errors before
succeeding. -/
def c2FailStream : List Outcome :=
  [.apiConnectionError, .apiConnectionError, .apiConnectionError, .apiConnectionError, .success "ok"]

/-- A one-page document with three TEXT units. -/
def c4Book : Book :=
  ⟨[⟨[{ content_type := .TEXT, original := "one" },
      { content_type := .TEXT, original := "two" },
      { content_type := .TEXT, original := "three" }]⟩]⟩

/-- A model client that answers success=false with an empty string on
the second unit's prompt and succeeds elsewhere. -/
def c4Req : Option String → String × Bool := fun p =>
  if p = some "翻译为中文：two" then ("", false) else ("译", true)

/-- A one-page document with two TEXT units. -/
def c6Book : Book :=
  ⟨[⟨[{ content_type := .TEXT, original := "x" },
      { content_type := .TEXT, original := "y" }]⟩]⟩

/-- A model client that always answers the same successful translation. -/
def c6Req : Option String → String × Bool := fun _ => ("T", true)

/-! ### Helper lemmas -/

/-- Invariant of the retry loop: started below the attempt cap, it never
reaches the final return with a False flag, because only rate limits
move the counter and the cap immediately raises. -/
lemma makeRequestLoop_no_fail (outcomes : List Outcome) :
    ∀ attempts : Nat, attempts < 3 →
    returnedFailure (makeRequestLoop attempts outcomes).result = false := by
  induction outcomes with
  | nil => intro attempts h3; simp [makeRequestLoop, h3, returnedFailure]
  | cons o rest ih =>
    intro attempts h3
    cases o with
    | success t => simp [makeRequestLoop, h3, returnedFailure]
    | rateLimit =>
      by_cases h : attempts + 1 < 3
      · simpa [makeRequestLoop, h3, h] using ih (attempts + 1) h
      · simp [makeRequestLoop, h3, h, returnedFailure]
    | apiConnectionError => simpa [makeRequestLoop, h3] using ih attempts h3
    | apiError => simpa [makeRequestLoop, h3] using ih attempts h3
    | otherError m => simp [makeRequestLoop, h3, returnedFailure]

/-- Over outcomes that all settle their attempt, the loop makes at most
3 - attempts further invocations and, given enough outcomes, never runs
dry. -/
lemma makeRequestLoop_settling (outcomes : List Outcome) :
    ∀ attempts : Nat, attempts < 3 → (∀ o ∈ outcomes, settling o = true) →
    3 ≤ attempts + outcomes.length →
    (makeRequestLoop attempts outcomes).calls ≤ 3 - attempts ∧
    ranDry (makeRequestLoop attempts outcomes).result = false := by
  induction outcomes with
  | nil =>
    intro attempts h3 _ hlen
    simp only [List.length_nil, Nat.add_zero] at hlen
    exact absurd h3 (by omega)
  | cons o rest ih =>
    intro attempts h3 hall hlen
    cases o with
    | success t =>
      simp [makeRequestLoop, h3, ranDry]
      omega
    | rateLimit =>
      by_cases h : attempts + 1 < 3
      · obtain ⟨h1, h2⟩ := ih (attempts + 1) h
          (fun o ho => hall o (List.mem_cons_of_mem _ ho))
          (by simp only [List.length_cons] at hlen; omega)
        simp [makeRequestLoop, h3, h]
        exact ⟨by omega, h2⟩
      · simp [makeRequestLoop, h3, h, ranDry]
        omega
    | apiConnectionError =>
      have := hall _ (List.mem_cons_self _ _)
      simp [settling] at this
    | apiError =>
      have := hall _ (List.mem_cons_self _ _)
      simp [settling] at this
    | otherError m =>
      simp [makeRequestLoop, h3, ranDry]
      omega

/-- List.range' with step 1 concatenates along the count. -/
lemma range'_one_append (s m n : Nat) :
    List.range' s m ++ List.range' (s + m) n = List.range' s (m + n) := by
  have h := List.range'_append s m n 1
  rw [Nat.one_mul] at h
  rw [Nat.add_comm n m] at h
  exact h

/-- Closed form of the inner loop: it maps the mutation and the
translation over the units and emits consecutive signals. -/
lemma runContents_eq (req : Option String → String × Bool) (tl : String)
    (cs : List Content) :
    ∀ processed : Nat,
    runContents req tl cs processed =
      (cs.map (mutate_unit req tl), cs.map (unit_translation req tl),
        List.range' (processed + 1) cs.length) := by
  induction cs with
  | nil => intro p; simp [runContents]
  | cons c rest ih =>
    intro p
    simp [runContents, ih, mutate_unit, unit_translation, List.range'_succ]

/-- Closed form of the page loop: mutation mapped over every page,
translations mapped over the flattened document, and consecutive
signals across pages. -/
lemma runPages_eq (req : Option String → String × Bool) (tl : String)
    (ps : List Page) :
    ∀ processed : Nat,
    runPages req tl ps processed =
      (ps.map (fun p => Page.mk (p.contents.map (mutate_unit req tl))),
        ((ps.map Page.contents).flatten).map (unit_translation req tl),
        List.range' (processed + 1) ((ps.map fun p => p.contents.length).sum)) := by
  induction ps with
  | nil => intro p; simp [runPages]
  | cons pg rest ih =>
    intro p
    simp [runPages, runContents_eq, ih]
    have e : p + pg.contents.length + 1 = (p + 1) + pg.contents.length := by omega
    rw [e, range'_one_append]

/-! ### Claims -/

/-- C1: with the backend rate-limited on the first two invocations and
successful on the third, make_request returns (translation, True) after
exactly two backoff sleeps of 60 time-units; with the backend
rate-limited on all three attempts, make_request raises the fatal
rate-limit error instead of returning a (text, false) pair. -/
theorem c1_rate_limit_retry (t : String) (rest : List Outcome) :
    make_request (.rateLimit :: .rateLimit :: .success t :: rest)
      = ⟨.returned t true, [60, 60], 3⟩ ∧
    make_request (.rateLimit :: .rateLimit :: .rateLimit :: rest)
      = ⟨.raised "Rate limit reached. Maximum attempts exceeded.", [60, 60], 3⟩ :=
  ⟨rfl, rfl⟩

/-- C2 counterexample: a backend that yields four connectivity failures
and then a success makes make_request terminate only after five backend
invocations, more than the three the claim allows, because the
connectivity branch does not touch the attempt counter. Moreover nine
straight connectivity failures leave the loop still running after nine
invocations, so no uniform bound on invocations exists. -/
theorem c2_counterexample :
    (make_request c2FailStream).result = .returned "ok" true ∧
    (make_request c2FailStream).calls = 5 ∧
    3 < (make_request c2FailStream).calls ∧
    ranDry (make_request (List.replicate 9 Outcome.apiConnectionError)).result = true ∧
    (make_request (List.replicate 9 Outcome.apiConnectionError)).calls = 9 := by
  decide

/-- C2 amended: for every sequence of backend outcomes, each of which
settles its attempt (success, rate-limit, or unclassified failure — i.e.
no connectivity failures and no generic API errors), make_request
terminates after invoking the backend at most 3 times; connectivity
failures and generic API errors fall through the loop without touching
the attempt counter, so they void the bound. -/
theorem c2_attempt_cap (outcomes : List Outcome)
    (hall : ∀ o ∈ outcomes, settling o = true)
    (hlen : 3 ≤ outcomes.length) :
    (make_request outcomes).calls ≤ 3 ∧
    ranDry (make_request outcomes).result = false := by
  have h := makeRequestLoop_settling outcomes 0 (by omega) hall (by omega)
  simpa [make_request] using h

/-- Witness for c2_attempt_cap at a concrete all-rate-limited stream. -/
theorem c2_attempt_cap_witness :
    (∀ o ∈ ([Outcome.rateLimit, Outcome.rateLimit, Outcome.rateLimit] : List Outcome),
        settling o = true) ∧
    3 ≤ ([Outcome.rateLimit, Outcome.rateLimit, Outcome.rateLimit] : List Outcome).length ∧
    ((make_request [Outcome.rateLimit, Outcome.rateLimit, Outcome.rateLimit]).calls ≤ 3 ∧
      ranDry (make_request [Outcome.rateLimit, Outcome.rateLimit, Outcome.rateLimit]).result
        = false) :=
  ⟨by decide, by decide, c2_attempt_cap _ (by decide) (by decide)⟩

/-- C8: the final (empty string, False) return of make_request is
unreachable — for every sequence of backend outcomes, the call never
produces a returned pair with a False success flag, so every terminating
call either returns (translation, True) or raises. -/
theorem c8_no_failure_return (outcomes : List Outcome) :
    returnedFailure (make_request outcomes).result = false :=
  makeRequestLoop_no_fail outcomes 0 (by omega)

/-- C5: for target language 中文 and a TEXT unit the generated prompt
starts with the fixed Chinese text-template prefix; for a target
language outside the exact-match mapping the prompt is the generic
default template with the identifier substituted verbatim, followed by
the unit's text. -/
theorem c5_prompt_selection (text tl : String)
    (h1 : tl ≠ "中文") (h2 : tl ≠ "法语") (h3 : tl ≠ "日语") :
    (∃ rest, translate_prompt { content_type := .TEXT, original := text } "中文"
        = some ("翻译为中文：" ++ rest)) ∧
    translate_prompt { content_type := .TEXT, original := text } tl
      = some ("翻译为" ++ tl ++ "：" ++ text) := by
  refine ⟨⟨text, ?_⟩, ?_⟩
  · rfl
  · simp [translate_prompt, make_text_prompt, h1, h2, h3]

/-- Witness for c5_prompt_selection at the unmapped language 英语. -/
theorem c5_prompt_selection_witness :
    (("英语" : String) ≠ "中文" ∧ ("英语" : String) ≠ "法语" ∧ ("英语" : String) ≠ "日语") ∧
    ((∃ rest, translate_prompt { content_type := .TEXT, original := "hello" } "中文"
        = some ("翻译为中文：" ++ rest)) ∧
      translate_prompt { content_type := .TEXT, original := "hello" } "英语"
        = some ("翻译为" ++ "英语" ++ "：" ++ "hello")) :=
  ⟨⟨by decide, by decide, by decide⟩,
    c5_prompt_selection "hello" "英语" (by decide) (by decide) (by decide)⟩

/-- C9: translate_prompt produces a prompt only for TEXT units (text
template on the unit's original string) and TABLE units (table template
on the unit's flattened string representation); for a unit of any other
type it returns none rather than raising. -/
theorem c9_translate_prompt_dispatch (orig tl : String) :
    translate_prompt { content_type := .TEXT, original := orig } tl
      = some (make_text_prompt orig tl) ∧
    translate_prompt { content_type := .TABLE, original := orig } tl
      = some (make_table_prompt orig tl) ∧
    translate_prompt { content_type := .IMAGE, original := orig } tl = none :=
  ⟨rfl, rfl, rfl⟩

/-- C3: translate_pdf processes pages and units in document order: the
accumulated translated_text is exactly the model client's translation
mapped over the flattened document, and in particular its Nth entry
corresponds to the Nth content unit in traversal order. -/
theorem c3_order_preserved (req : Option String → String × Bool) (book : Book)
    (path fmt tl : String) (out : Option String) :
    (translate_pdf req book path fmt tl out).translated_text
      = (doc_units book).map (unit_translation req tl) ∧
    ∀ n : Nat,
      (translate_pdf req book path fmt tl out).translated_text[n]?
        = ((doc_units book)[n]?).map (unit_translation req tl) := by
  have h : (translate_pdf req book path fmt tl out).translated_text
      = (doc_units book).map (unit_translation req tl) := by
    simp [translate_pdf, runPages_eq, doc_units]
  refine ⟨h, fun n => ?_⟩
  rw [h, List.getElem?_map]

/-- C4: on a three-unit document whose second unit's model call answers
(empty string, success=false), the traversal completes (the driver is a
total function, so no exception is raised), units 1 and 3 end with
success=true, unit 2 ends with success=false, the joined output has unit
2's empty string at position 2 (index 1), and all three progress signals
fire. -/
theorem c4_partial_failure :
    (translate_pdf c4Req c4Book "doc.pdf" "PDF" "中文" (some "out.pdf")).book.pages.map
        (fun p => p.contents.map Content.status) = [[true, false, true]] ∧
    (translate_pdf c4Req c4Book "doc.pdf" "PDF" "中文" (some "out.pdf")).book.pages.map
        (fun p => p.contents.map Content.translation) = [[some "译", some "", some "译"]] ∧
    (translate_pdf c4Req c4Book "doc.pdf" "PDF" "中文" (some "out.pdf")).translated_text
      = ["译", "", "译"] ∧
    (translate_pdf c4Req c4Book "doc.pdf" "PDF" "中文" (some "out.pdf")).translated_text[1]?
      = some "" ∧
    (translate_pdf c4Req c4Book "doc.pdf" "PDF" "中文" (some "out.pdf")).signals = [1, 2, 3] := by
  decide

/-- C6 counterexample: with two units both translated to T, the string
translate_pdf returns is T, blank line, T — the entries are separated by
a double newline, not by the single newline the claim states. -/
theorem c6_counterexample :
    (translate_pdf c6Req c6Book "doc.pdf" "PDF" "中文" (some "out.pdf")).translated_text
      = ["T", "T"] ∧
    (translate_pdf c6Req c6Book "doc.pdf" "PDF" "中文" (some "out.pdf")).joined = "T\n\nT" ∧
    ((translate_pdf c6Req c6Book "doc.pdf" "PDF" "中文" (some "out.pdf")).joined == "T\nT")
      = false := by
  decide

/-- C6 amended: translate_pdf hands the writer the fully mutated
document and returns the translated strings in document order joined
with a double-newline (blank line) separator between consecutive
entries. -/
theorem c6_writer_then_join (req : Option String → String × Bool) (book : Book)
    (path fmt tl : String) (out : Option String) :
    (translate_pdf req book path fmt tl out).book
      = Book.mk (book.pages.map fun p => Page.mk (p.contents.map (mutate_unit req tl))) ∧
    (translate_pdf req book path fmt tl out).joined
      = String.intercalate "\n\n" ((doc_units book).map (unit_translation req tl)) := by
  constructor
  · simp [translate_pdf, runPages_eq]
  · simp [translate_pdf, runPages_eq, doc_units]

/-- C7: the progress signals of one translate_pdf run are exactly
1, 2, ..., totalContents in order — strictly increasing by one per
processed unit, starting at 1, bounded by the total unit count, one per
unit. -/
theorem c7_progress_signals (req : Option String → String × Bool) (book : Book)
    (path fmt tl : String) (out : Option String) :
    (translate_pdf req book path fmt tl out).signals
      = List.range' 1 (totalContents book) ∧
    ∀ n : Nat, (translate_pdf req book path fmt tl out).signals[n]?
      = if n < totalContents book then some (n + 1) else none := by
  have h : (translate_pdf req book path fmt tl out).signals
      = List.range' 1 (totalContents book) := by
    simp [translate_pdf, runPages_eq, totalContents]
  refine ⟨h, fun n => ?_⟩
  rw [h]
  by_cases hn : n < totalContents book
  · rw [List.getElem?_range' 1 1 hn, if_pos hn]
    congr 1
    omega
  · rw [if_neg hn, List.getElem?_eq_none]
    rw [List.length_range']
    omega

/-- C10: with output_file_path unset, translate_pdf derives the output
path as the source path without its extension, then _translated_, the
target language, a dot, and the lowercased file format; concretely
a/b.pdf with format PDF and language 中文 yields
a/b_translated_中文.pdf. -/
theorem c10_output_path (req : Option String → String × Bool) (book : Book)
    (pdf fmt tl : String) :
    (translate_pdf req book pdf fmt tl none).output_file_path
      = splitext_root pdf ++ "_translated_" ++ tl ++ "." ++ py_lower fmt ∧
    (translate_pdf (fun _ => ("", true)) (Book.mk []) "a/b.pdf" "PDF" "中文"
        none).output_file_path
      = "a/b_translated_中文.pdf" := by
  exact ⟨rfl, by decide⟩
